import Mathlib

/-!
Verification of the viewport layout and event-routing subsystem of glumpy
(`glumpy/app/viewport.py`).

The embedding models the `Viewport` class as a rose tree of node records.
Scalar quantities (requested sizes, positions, anchors, computed geometry)
are rationals; Python 2's `int(round(x))` is modelled by `pyround`
(round half away from zero).  The per-node state mirrors the Python
attributes `_requested_size`, `_requested_position`, `_anchor`, `_aspect`,
`_viewport_position`, `_viewport_size`, `_scissor_position`,
`_scissor_size`, `_active` and `_active_viewports`.
-/

namespace Glumpy

set_option maxRecDepth 100000

/-- Python 2 `round`: round half away from zero, as used by
`int(round(...))` in `Viewport._compute_viewport`. -/
def pyround (q : ℚ) : ℤ :=
  if 0 ≤ q then ⌊q + 1/2⌋ else -⌊-q + 1/2⌋

/-- `int(round(q))` followed by re-use in rational arithmetic. -/
def rnd (q : ℚ) : ℚ := (pyround q : ℚ)

/-- State of one `Viewport` object (the attributes of the Python class). -/
structure NodeData where
  id : Nat
  requested_size : ℚ × ℚ
  requested_position : ℚ × ℚ
  anchor : ℚ × ℚ
  aspect : Option ℚ
  viewport_position : ℚ × ℚ
  viewport_size : ℚ × ℚ
  scissor_position : ℚ × ℚ
  scissor_size : ℚ × ℚ
  active : Bool
  active_viewports : List Nat
  deriving Repr, DecidableEq

/-- The geometry of a node consumed by its children during
`_compute_viewport`: parent viewport position/size and scissor
position/size. -/
structure Geom where
  vpos : ℚ × ℚ
  vsize : ℚ × ℚ
  spos : ℚ × ℚ
  ssize : ℚ × ℚ
  deriving Repr, DecidableEq

/-- Read the geometry fields of a node. -/
def geomOf (d : NodeData) : Geom :=
  ⟨d.viewport_position, d.viewport_size, d.scissor_position, d.scissor_size⟩

/-- Width/height resolution for a child (`_compute_viewport`, the
`Relative width` / `Relative height` branch chains, lines 256-266 and
281-289): `r <= -1`, `r < 0`, `r <= 1`, else absolute. -/
def resolveLen (p r : ℚ) : ℚ :=
  if r ≤ -1 then max (p + r) 0
  else if r < 0 then max (p + r * p) 0
  else if r ≤ 1 then r * p
  else r

/-- Anchor resolution (`X anchor` / `Y anchor` blocks): note the third
branch is a strict `< 1`, unlike size resolution. -/
def resolveAnchor (v a : ℚ) : ℚ :=
  if a ≤ -1 then v + a
  else if a < 0 then v + a * v
  else if a < 1 then a * v
  else a

/-- Position resolution (`X positioning` / `Y positioning` blocks). -/
def resolvePos (p r : ℚ) : ℚ :=
  if r ≤ -1 then p + r
  else if r < 0 then p + r * p
  else if r < 1 then r * p
  else r

/-- Scissor extent: `max(min(ps - (s - pv) - 1, v), 0)` where `ps` is the
parent scissor extent, `pv` the parent viewport coordinate, `s` the
already-clamped scissor coordinate and `v` the child viewport extent. -/
def scissorLen (ps pv s v : ℚ) : ℚ :=
  max (min (ps - (s - pv) - 1) v) 0

/-- `Viewport._compute_viewport`, root branch (parent is `None`,
lines 231-248): the request is honored except for aspect shrinking, and
the result is centered inside the requested size.  A Python-falsy aspect
(`None` or `0`) skips the aspect adjustment. -/
def computeRoot (d : NodeData) : NodeData :=
  let rqw := d.requested_size.1
  let rqh := d.requested_size.2
  let wh : ℚ × ℚ :=
    match d.aspect with
    | none => (rqw, rqh)
    | some a =>
      if a = 0 then (rqw, rqh)
      else
        let h := rqw * a
        if rqh < h then (rqh / a, rqh) else (rqw, h)
  let x := (rqw - wh.1) / 2
  let y := (rqh - wh.2) / 2
  { d with viewport_position := (x, y), viewport_size := wh,
           scissor_position := (x, y), scissor_size := wh }

/-- `Viewport._compute_viewport`, child branch (lines 250-352), as a pure
function of the parent's geometry `pg` and the child's stored request.
Width is resolved and rounded; if the aspect is truthy the height is
derived from it (possibly clamping to the parent height and back-solving
the width, unrounded); otherwise the height is resolved like the width.
Anchors and positions are then resolved and the scissor rectangle
computed from `max(pvx,vx)` / `max(pvy,vy)` and `scissorLen`. -/
def computeChild (pg : Geom) (d : NodeData) : NodeData :=
  let pvx := pg.vpos.1
  let pvy := pg.vpos.2
  let pvw := pg.vsize.1
  let pvh := pg.vsize.2
  let psw := pg.ssize.1
  let psh := pg.ssize.2
  let rqw := d.requested_size.1
  let rqh := d.requested_size.2
  let vw1 : ℚ := rnd (resolveLen pvw rqw)
  let wh : ℚ × ℚ :=
    match d.aspect with
    | none => (vw1, resolveLen pvh rqh)
    | some a =>
      if a = 0 then (vw1, resolveLen pvh rqh)
      else
        let vh := a * vw1
        if pvh < vh ∧ (-1 < rqw ∧ rqw ≤ 1) then (pvh / a, pvh) else (vw1, vh)
  let vw := wh.1
  let vh := rnd wh.2
  let ax := rnd (resolveAnchor vw d.anchor.1)
  let vx := rnd (resolvePos pvw d.requested_position.1) + pvx - ax
  let ay := rnd (resolveAnchor vh d.anchor.2)
  let vy := rnd (resolvePos pvh d.requested_position.2) + pvy - ay
  let sx := max pvx vx
  let sy := max pvy vy
  let sw := scissorLen psw pvx sx vw
  let sh := scissorLen psh pvy sy vh
  { d with viewport_position := (vx, vy), viewport_size := (vw, vh),
           scissor_position := (sx, sy), scissor_size := (sw, sh) }

/-- A viewport tree: one `Viewport` object with its ordered children. -/
inductive VTree where
  | node : NodeData → List VTree → VTree
  deriving Repr

/-- Data stored at the top node of a tree. -/
def VTree.data : VTree → NodeData
  | .node d _ => d

/-- Children of the top node of a tree. -/
def VTree.kids : VTree → List VTree
  | .node _ cs => cs

/-- Id stored at the top node of a tree. -/
def idOfT (t : VTree) : Nat := t.data.id

mutual

/-- Recursive `_compute_viewport`: compute the node from its parent's
geometry (`none` selects the root branch) and recurse into the children
in order, each child reading the freshly computed geometry. -/
def recomputeT (pg : Option Geom) : VTree → VTree
  | .node d cs =>
    let d' := match pg with
      | none => computeRoot d
      | some g => computeChild g d
    .node d' (recomputeKids (geomOf d') cs)
termination_by t => sizeOf t

/-- Children loop of `_compute_viewport`. -/
def recomputeKids (g : Geom) : List VTree → List VTree
  | [] => []
  | c :: cs => recomputeT (some g) c :: recomputeKids g cs
termination_by cs => sizeOf cs

end

/-- `Viewport.__contains__` on the stored attributes: the y coordinate is
first flipped against `self.root.size[1]` (passed here as `rootH`), then
the point is compared against the viewport rectangle. -/
def containsPt (rootH : ℚ) (d : NodeData) (x y : ℚ) : Bool :=
  let y2 := rootH - y
  decide (d.viewport_position.1 ≤ x ∧
          x < d.viewport_position.1 + d.viewport_size.1 ∧
          d.viewport_position.2 ≤ y2 ∧
          y2 < d.viewport_position.2 + d.viewport_size.2)

/-- `(x,y) in child` as evaluated while a node with viewport height
`flipH` iterates its children: for the child, `self.root` is its parent
(the testing node), so the flip height is the parent's stored viewport
height. -/
def hitB (flipH : ℚ) (c : VTree) (x y : ℚ) : Bool :=
  containsPt flipH c.data x y

/-- Result of dispatching a press through the children of one node:
the updated children, the per-hit-child contributions
(`(child id, ids the child's own dispatch appended to this node's
capture list)`), and the receivers log. -/
structure PressOut where
  kidsOut : List VTree
  contribs : List (Nat × List Nat)
  plog : List Nat

mutual

/-- `Viewport.on_mouse_press` at a non-root node: the node appends each
hit child to `self.root._active_viewports` — its parent's capture list,
returned as the second component — and the hit children's own dispatches
extend this node's capture list. -/
def pressT (x y : ℚ) : VTree → VTree × List Nat × List Nat
  | .node d cs =>
    let po := pressKids x y d.viewport_size.2 cs
    (.node { d with active_viewports :=
               d.active_viewports ++ po.contribs.flatMap Prod.snd } po.kidsOut,
     po.contribs.map Prod.fst,
     po.plog)
termination_by t => sizeOf t

/-- The `for child in self._children` loop of `on_mouse_press`: test each
child against the dispatching node's viewport height, recurse into hit
children.  Each hit child is dispatched to (logged), and returns the ids
its own processing appends to the dispatching node's capture list. -/
def pressKids (x y flipH : ℚ) : List VTree → PressOut
  | [] => ⟨[], [], []⟩
  | c :: cs =>
    let rest := pressKids x y flipH cs
    if hitB flipH c x y then
      let r := pressT x y c
      ⟨r.1 :: rest.kidsOut, (idOfT c, r.2.1) :: rest.contribs,
       (idOfT c :: r.2.2) ++ rest.plog⟩
    else
      ⟨c :: rest.kidsOut, rest.contribs, rest.plog⟩
termination_by cs => sizeOf cs

end

/-- `Viewport.on_mouse_press` at the root (`self.parent == None`): the
capture list is cleared, then each hit child is appended and dispatched;
`self.root` is the root itself, so both the direct appends and the
children's returned appends target the root's capture list, interleaved
in dispatch order.  Returns the updated tree and the receivers log. -/
def pressRoot (x y : ℚ) : VTree → VTree × List Nat
  | .node d cs =>
    let po := pressKids x y d.viewport_size.2 cs
    (.node { d with active_viewports :=
               po.contribs.flatMap (fun pr => pr.1 :: pr.2) } po.kidsOut,
     po.plog)

/-- Capture list stored at the top node (`_active_viewports`). -/
def rootCaps (t : VTree) : List Nat := t.data.active_viewports

/-- `Viewport.on_mouse_release`: only the root (`self.parent == None`)
acts, dispatching the release to every entry of its own capture list;
the release coordinates play no part in choosing the receivers, and the
dispatched children's handlers do nothing further (their parent is not
`None`). -/
def releaseReceivers (_x _y : ℚ) (t : VTree) : List Nat :=
  t.data.active_viewports

mutual

/-- The `Viewport.active` property setter: stores the value and recurses
into every child — for either value of the flag. -/
def setActiveT (v : Bool) : VTree → VTree
  | .node d cs => .node { d with active := v } (setActiveKids v cs)
termination_by t => sizeOf t

/-- Children loop of the `active` setter. -/
def setActiveKids (v : Bool) : List VTree → List VTree
  | [] => []
  | c :: cs => setActiveT v c :: setActiveKids v cs
termination_by cs => sizeOf cs

end

mutual

/-- Decidable check that a predicate holds at every node of a tree. -/
def allD (p : NodeData → Bool) : VTree → Bool
  | .node d cs => p d && allDKids p cs
termination_by t => sizeOf t

/-- Decidable check that a predicate holds at every node of a forest. -/
def allDKids (p : NodeData → Bool) : List VTree → Bool
  | [] => true
  | c :: cs => allD p c && allDKids p cs
termination_by cs => sizeOf cs

end

mutual

/-- Node data at an address (list of child indices from the top). -/
def nodeAt : VTree → List Nat → Option NodeData
  | .node d _, [] => some d
  | .node _ cs, i :: rest => nodeAtKids cs i rest
termination_by t _ => sizeOf t

/-- Indexing step of `nodeAt`. -/
def nodeAtKids : List VTree → Nat → List Nat → Option NodeData
  | [], _, _ => none
  | c :: _, 0, rest => nodeAt c rest
  | _ :: cs, i + 1, rest => nodeAtKids cs i rest
termination_by cs _ _ => sizeOf cs

end

mutual

/-- Replace the subtree at an address by applying `f` to it (identity on
invalid addresses). -/
def modifySub (f : VTree → VTree) : VTree → List Nat → VTree
  | t, [] => f t
  | .node d cs, i :: rest => .node d (modifySubKids f cs i rest)
termination_by t _ => sizeOf t

/-- Indexing step of `modifySub`. -/
def modifySubKids (f : VTree → VTree) : List VTree → Nat → List Nat → List VTree
  | [], _, _ => []
  | c :: cs, 0, rest => modifySub f c rest :: cs
  | c :: cs, i + 1, rest => c :: modifySubKids f cs i rest
termination_by cs _ _ => sizeOf cs

end

/-- Update the data stored at the top of a tree. -/
def dataUpd (f : NodeData → NodeData) : VTree → VTree
  | .node d cs => .node (f d) cs

/-- Apply a data update to the node at an address. -/
def updateData (f : NodeData → NodeData) (t : VTree) (a : List Nat) : VTree :=
  modifySub (dataUpd f) t a

/-- `self.root._compute_viewport()` issued from the node at address `ra`
… the address of the node the (non-recursive) `root` property returned.
With `ra = []` this is a full-tree recompute; otherwise the subtree at
`ra` is recomputed, its top reading the stored geometry of its parent at
`ra.dropLast`. -/
def recomputeFrom (t : VTree) (ra : List Nat) : VTree :=
  match ra with
  | [] => recomputeT none t
  | _ =>
    match nodeAt t ra.dropLast with
    | none => t
    | some pd => modifySub (recomputeT (some (geomOf pd))) t ra

/-- The `size` property setter on the node at address `a`: store the
requested size, then recompute from `self.root` — the node itself when
`a = []`, else its immediate parent at `a.dropLast`. -/
def setSizeAt (t : VTree) (a : List Nat) (sz : ℚ × ℚ) : VTree :=
  recomputeFrom (updateData (fun d => { d with requested_size := sz }) t a)
    a.dropLast

/-- The `position` property setter, same recompute trigger as `size`. -/
def setPositionAt (t : VTree) (a : List Nat) (ps : ℚ × ℚ) : VTree :=
  recomputeFrom (updateData (fun d => { d with requested_position := ps }) t a)
    a.dropLast

/-- Ids of the children of `t` that pass the hit test performed by `t`
itself (flip height = `t`'s stored viewport height), in child order. -/
def hitIdsOf (x y : ℚ) (t : VTree) : List Nat :=
  (t.kids.filter fun c => hitB t.data.viewport_size.2 c x y).map idOfT

/-- The four-branch size-resolution rule in the form the spec states it:
`r ≤ -1` / `-1 < r < 0` / `0 ≤ r ≤ 1` / `r > 1`. -/
def specResolve (r p : ℚ) : ℚ :=
  if r ≤ -1 then max (p + r) 0
  else if -1 < r ∧ r < 0 then max (p + r * p) 0
  else if 0 ≤ r ∧ r ≤ 1 then r * p
  else r

/-- Reference-level view of a `Viewport` object for the operations that
manipulate the parent/child links: its id, its parent reference and its
list of child ids. -/
structure VRec where
  id : Nat
  parent : Option Nat
  children : List Nat
  deriving Repr, DecidableEq

/-- `Viewport.add`: `child._parent = self; self._children.append(child)` —
unconditionally; there is no check on the child's current parent. -/
def addChild (self child : VRec) : VRec × VRec :=
  ({ self with children := self.children ++ [child.id] },
   { child with parent := some self.id })

/-- Modelled from the spec: `add_child(parent, child)` per sections 4.2
and 7 — "Fails (precondition violation) if child already has a parent —
no re-parenting without explicit removal", "no partial mutation
applied"; the failure is modelled as `none`. -/
def addChildChecked (self child : VRec) : Option (VRec × VRec) :=
  match child.parent with
  | some _ => none
  | none => some (addChild self child)

/-- The `Viewport.root` property: `self` when the parent reference is
unset, otherwise the immediate parent — a single dereference, not a loop
up to the top of the tree.  The environment resolves the parent
reference by id. -/
def rootRef (env : List VRec) (v : VRec) : Option VRec :=
  match v.parent with
  | none => some v
  | some p => env.find? (fun w => w.id == p)

/-- Constructor defaults of `Viewport.__init__`: the requested size and
position are also stored verbatim as the initial viewport and scissor
geometry, the node starts inactive with an empty capture list. -/
def mkData (i : Nat) (sz ps : ℚ × ℚ) : NodeData :=
  { id := i, requested_size := sz, requested_position := ps,
    anchor := (0, 0), aspect := none, viewport_position := ps,
    viewport_size := sz, scissor_position := ps, scissor_size := sz,
    active := false, active_viewports := [] }

/-- The clip rectangle exactly as claim C4 states it: intersection of the
child rectangle with the parent's clip rectangle — `max` against the
parent's clip position, extents limited by the parent's clip extents
measured from the parent's clip position. -/
def specClip (g : Geom) (cpos csize : ℚ × ℚ) : (ℚ × ℚ) × (ℚ × ℚ) :=
  let cx := max g.spos.1 cpos.1
  let cy := max g.spos.2 cpos.2
  ((cx, cy),
   (max (min (g.ssize.1 - (cx - g.spos.1) - 1) csize.1) 0,
    max (min (g.ssize.2 - (cy - g.spos.2) - 1) csize.2) 0))

/-- The containment test as the spec states it: the point as given,
compared against the absolute viewport rectangle, any coordinate flip
being the caller's business. -/
def specContains (d : NodeData) (x y : ℚ) : Bool :=
  decide (d.viewport_position.1 ≤ x ∧
          x < d.viewport_position.1 + d.viewport_size.1 ∧
          d.viewport_position.2 ≤ y ∧
          y < d.viewport_position.2 + d.viewport_size.2)

/-- `set_size` as the spec states it (section 6): store the request, then
recompute the whole tree from its root. -/
def setSizeFullRecompute (t : VTree) (a : List Nat) (sz : ℚ × ℚ) : VTree :=
  recomputeT none (updateData (fun d => { d with requested_size := sz }) t a)

/-- `set_position` as the spec states it (section 6): store the request,
then recompute the whole tree from its root. -/
def setPositionFullRecompute (t : VTree) (a : List Nat) (ps : ℚ × ℚ) : VTree :=
  recomputeT none (updateData (fun d => { d with requested_position := ps }) t a)

/-- Four-level chain `0 ← 1 ← 2 ← 3`, every node with viewport rectangle
`(0,0,100,100)`, so the pointer `(10,90)` lands inside every node under
every flip performed during dispatch. -/
def chain4 : VTree :=
  .node (mkData 0 (100, 100) (0, 0))
    [.node (mkData 1 (100, 100) (0, 0))
      [.node (mkData 2 (100, 100) (0, 0))
        [.node (mkData 3 (100, 100) (0, 0)) []]]]

/-- Root with two fully overlapping children. -/
def overlapTree : VTree :=
  .node (mkData 0 (100, 100) (0, 0))
    [.node (mkData 1 (100, 100) (0, 0)) [],
     .node (mkData 2 (100, 100) (0, 0)) []]

/-- Root `(400,400)` with child 1 (absolute size, with grandchild 3) and
child 2 of relative size 1/2; nothing has been recomputed yet, so child 2
still stores its raw request `(1/2, 1/2)` as geometry. -/
def staleTree : VTree :=
  .node (mkData 0 (400, 400) (0, 0))
    [.node (mkData 1 (100, 100) (0, 0))
       [.node (mkData 3 (10, 10) (0, 0)) []],
     .node (mkData 2 (1/2, 1/2) (0, 0)) []]

/-- Geometry of node 1 of the C4 example: under a root `(0,0,100,100)`,
a child of absolute size `(50,50)` requested at position `(-120,0)` gets
viewport `x = -20` but scissor position clamped to `x = 0`, so its
scissor and viewport positions differ. -/
def c4ParentGeom : Geom :=
  geomOf (computeChild (geomOf (computeRoot (mkData 0 (100, 100) (0, 0))))
    (mkData 1 (50, 50) (-120, 0)))

/-- Grandchild of the C4 example, computed against `c4ParentGeom`. -/
def c4Grandchild : NodeData :=
  computeChild c4ParentGeom (mkData 2 (30, 30) (0, 0))

/-- Structural induction for viewport trees. -/
theorem VTree.inductionOn (P : VTree → Prop)
    (h : ∀ d cs, (∀ c ∈ cs, P c) → P (.node d cs)) : ∀ t, P t
  | .node d cs => h d cs (fun c hc => VTree.inductionOn P h c)
termination_by t => sizeOf t
decreasing_by
  have := List.sizeOf_lt_of_mem hc
  simp only [VTree.node.sizeOf_spec]
  omega

theorem pressKids_contribs (x y flipH : ℚ) (cs : List VTree)
    (ih : ∀ c ∈ cs, (pressT x y c).2.1 = hitIdsOf x y c) :
    (pressKids x y flipH cs).contribs
      = (cs.filter fun c => hitB flipH c x y).map
          (fun c => (idOfT c, hitIdsOf x y c)) := by
  induction cs with
  | nil => simp [pressKids]
  | cons c cs ihl =>
    have hc := ih c (List.mem_cons_self c cs)
    have hrest := ihl fun c' hc' => ih c' (List.mem_cons_of_mem c hc')
    rw [pressKids]
    by_cases h : hitB flipH c x y
    · simp [h, hrest, hc, List.filter_cons]
    · simp [h, hrest, List.filter_cons]

theorem pressT_hits (x y : ℚ) : ∀ t, (pressT x y t).2.1 = hitIdsOf x y t := by
  refine VTree.inductionOn _ ?_
  intro d cs ih
  rw [pressT, pressKids_contribs x y _ cs ih]
  simp [hitIdsOf, VTree.kids, VTree.data, List.map_map, Function.comp_def]

theorem mem_pressKids_log (x y flipH : ℚ) (cs : List VTree) (c : VTree)
    (hc : c ∈ cs) (hh : hitB flipH c x y = true) :
    idOfT c ∈ (pressKids x y flipH cs).plog := by
  induction cs with
  | nil => cases hc
  | cons c' cs ihl =>
    rw [pressKids]
    rcases List.mem_cons.mp hc with h | h
    · subst h
      simp [hh]
    · by_cases h' : hitB flipH c' x y <;> simp [h', ihl h]

/-- Closed form of the root's capture list after `on_mouse_press`: the
previous content is discarded and, for each hit direct child in order,
the child's id followed by the ids of the child's own hit children
(appended there because the child's `root` is the root itself). -/
theorem pressRoot_caps (x y : ℚ) (d : NodeData) (cs : List VTree) :
    rootCaps (pressRoot x y (.node d cs)).1
      = (cs.filter fun c => hitB d.viewport_size.2 c x y).flatMap
          (fun c => idOfT c :: hitIdsOf x y c) := by
  rw [pressRoot, pressKids_contribs x y _ cs (fun c _ => pressT_hits x y c)]
  simp [rootCaps, VTree.data, List.flatMap_def, List.map_map, Function.comp_def]

/-- `pyround` is a round-to-nearest: it never strays further than 1/2
from its argument. -/
theorem pyround_nearest (q : ℚ) : |(pyround q : ℚ) - q| ≤ 1/2 := by
  unfold pyround
  split
  · have h1 := Int.floor_le (q + 1/2)
    have h2 := Int.lt_floor_add_one (q + 1/2)
    rw [abs_le]
    constructor <;> linarith
  · have h1 := Int.floor_le (-q + 1/2)
    have h2 := Int.lt_floor_add_one (-q + 1/2)
    rw [abs_le]
    push_cast
    constructor <;> linarith

theorem resolveLen_eq_specResolve (p r : ℚ) : resolveLen p r = specResolve r p := by
  unfold resolveLen specResolve
  rcases le_or_lt r (-1) with h1 | h1
  · rw [if_pos h1, if_pos h1]
  · rw [if_neg (not_le.mpr h1), if_neg (not_le.mpr h1)]
    rcases lt_or_le r 0 with h2 | h2
    · rw [if_pos h2, if_pos ⟨h1, h2⟩]
    · have hand : ¬(-1 < r ∧ r < 0) := fun hx => absurd hx.2 (not_lt.mpr h2)
      rw [if_neg (not_lt.mpr h2)]
      rcases le_or_lt r 1 with h3 | h3
      · rw [if_pos h3, if_neg hand, if_pos ⟨h2, h3⟩]
      · rw [if_neg (not_le.mpr h3), if_neg hand,
            if_neg (fun hx => absurd hx.2 (not_le.mpr h3))]

theorem scissorLen_nonneg (ps pv s v : ℚ) : 0 ≤ scissorLen ps pv s v :=
  le_max_right _ _

theorem scissorLen_le (ps pv s v : ℚ) (hps : 0 ≤ ps) (hs : pv ≤ s) :
    scissorLen ps pv s v ≤ ps := by
  unfold scissorLen
  rcases le_or_lt (min (ps - (s - pv) - 1) v) 0 with h | h
  · rw [max_eq_right h]; exact hps
  · rw [max_eq_left h.le]
    calc min (ps - (s - pv) - 1) v ≤ ps - (s - pv) - 1 := min_le_left _ _
      _ ≤ ps := by linarith

theorem setActiveKids_all (v : Bool) (p : NodeData → Bool) (cs : List VTree)
    (ih : ∀ c ∈ cs, allD p (setActiveT v c) = true) :
    allDKids p (setActiveKids v cs) = true := by
  induction cs with
  | nil => simp [setActiveKids, allDKids]
  | cons c cs ihl =>
    rw [setActiveKids, allDKids]
    simp [ih c (List.mem_cons_self c cs),
          ihl fun c' hc' => ih c' (List.mem_cons_of_mem c hc')]

theorem setActiveT_all (v : Bool) :
    ∀ t, allD (fun d => d.active == v) (setActiveT v t) = true := by
  refine VTree.inductionOn _ ?_
  intro d cs ih
  rw [setActiveT, allD]
  simp [setActiveKids_all v _ cs ih]

/-- With a `None` aspect, `_compute_viewport` resolves width and height
independently by the branch chain and rounds each. -/
theorem computeChild_size_noAspect (g : Geom) (d : NodeData)
    (h : d.aspect = none) :
    (computeChild g d).viewport_size
      = (rnd (resolveLen g.vsize.1 d.requested_size.1),
         rnd (resolveLen g.vsize.2 d.requested_size.2)) := by
  simp [computeChild, h]

mutual

theorem nodeAt_modifySub (f : VTree → VTree) :
    ∀ (t : VTree) (p b : List Nat), ¬ p <+: b →
      nodeAt (modifySub f t p) b = nodeAt t b
  | _, [], b, h => absurd (List.nil_prefix) h
  | .node _ _, _ :: _, [], _ => by
      simp [modifySub, nodeAt]
  | .node d cs, i :: rest, j :: brest, h => by
      simp only [modifySub, nodeAt]
      exact nodeAtKids_modifySubKids f cs i rest j brest h
termination_by t _ _ _ => sizeOf t

theorem nodeAtKids_modifySubKids (f : VTree → VTree) :
    ∀ (cs : List VTree) (i : Nat) (rest : List Nat) (j : Nat)
      (brest : List Nat), ¬ (i :: rest) <+: (j :: brest) →
      nodeAtKids (modifySubKids f cs i rest) j brest = nodeAtKids cs j brest
  | [], _, _, _, _, _ => by simp [modifySubKids]
  | c :: _, 0, rest, 0, brest, h => by
      simp only [modifySubKids, nodeAtKids]
      exact nodeAt_modifySub f c rest brest
        (fun hx => h (List.cons_prefix_cons.mpr ⟨rfl, hx⟩))
  | _ :: _, 0, _, _ + 1, _, _ => by
      simp [modifySubKids, nodeAtKids]
  | _ :: _, _ + 1, _, 0, _, _ => by
      simp [modifySubKids, nodeAtKids]
  | _ :: cs, i + 1, rest, j + 1, brest, h => by
      simp only [modifySubKids, nodeAtKids]
      exact nodeAtKids_modifySubKids f cs i rest j brest
        (fun hx => h (by
          rcases List.cons_prefix_cons.mp hx with ⟨hij, hr⟩
          exact List.cons_prefix_cons.mpr ⟨by rw [hij], hr⟩))
termination_by cs _ _ _ _ _ => sizeOf cs

end

mutual

theorem nodeAt_updateData (f : NodeData → NodeData) :
    ∀ (t : VTree) (a : List Nat),
      nodeAt (updateData f t a) a = (nodeAt t a).map f
  | .node _ _, [] => by simp [updateData, modifySub, dataUpd, nodeAt]
  | .node d cs, i :: rest => by
      simp only [updateData, modifySub, nodeAt]
      exact nodeAtKids_updateKids f cs i rest
termination_by t _ => sizeOf t

theorem nodeAtKids_updateKids (f : NodeData → NodeData) :
    ∀ (cs : List VTree) (i : Nat) (rest : List Nat),
      nodeAtKids (modifySubKids (dataUpd f) cs i rest) i rest
        = (nodeAtKids cs i rest).map f
  | [], _, _ => by simp [modifySubKids, nodeAtKids]
  | c :: _, 0, rest => by
      simp only [modifySubKids, nodeAtKids]
      exact nodeAt_updateData f c rest
  | _ :: cs, i + 1, rest => by
      simp only [modifySubKids, nodeAtKids]
      exact nodeAtKids_updateKids f cs i rest
termination_by cs _ _ => sizeOf cs

end

mutual

theorem nodeAt_recomputeT_map {α : Type} (g : NodeData → α)
    (h1 : ∀ d, g (computeRoot d) = g d)
    (h2 : ∀ pgeom d, g (computeChild pgeom d) = g d) :
    ∀ (pg : Option Geom) (t : VTree) (b : List Nat),
      (nodeAt (recomputeT pg t) b).map g = (nodeAt t b).map g
  | pg, .node d cs, [] => by
      cases pg with
      | none => simp [recomputeT, nodeAt, h1]
      | some gg => simp [recomputeT, nodeAt, h2]
  | pg, .node d cs, j :: brest => by
      cases pg with
      | none =>
        simp only [recomputeT, nodeAt]
        exact nodeAtKids_recomputeKids_map g h1 h2 _ cs j brest
      | some gg =>
        simp only [recomputeT, nodeAt]
        exact nodeAtKids_recomputeKids_map g h1 h2 _ cs j brest
termination_by _ t _ => sizeOf t

theorem nodeAtKids_recomputeKids_map {α : Type} (g : NodeData → α)
    (h1 : ∀ d, g (computeRoot d) = g d)
    (h2 : ∀ pgeom d, g (computeChild pgeom d) = g d) :
    ∀ (gg : Geom) (cs : List VTree) (j : Nat) (brest : List Nat),
      (nodeAtKids (recomputeKids gg cs) j brest).map g
        = (nodeAtKids cs j brest).map g
  | _, [], _, _ => by simp [recomputeKids]
  | gg, c :: _, 0, brest => by
      simp only [recomputeKids, nodeAtKids]
      exact nodeAt_recomputeT_map g h1 h2 (some gg) c brest
  | gg, _ :: cs, j + 1, brest => by
      simp only [recomputeKids, nodeAtKids]
      exact nodeAtKids_recomputeKids_map g h1 h2 gg cs j brest
termination_by _ cs _ _ => sizeOf cs

end

mutual

theorem nodeAt_modifySub_map {α : Type} (g : NodeData → α) (F : VTree → VTree)
    (hF : ∀ s b, (nodeAt (F s) b).map g = (nodeAt s b).map g) :
    ∀ (t : VTree) (p b : List Nat),
      (nodeAt (modifySub F t p) b).map g = (nodeAt t b).map g
  | t, [], b => by simp only [modifySub]; exact hF t b
  | .node _ _, _ :: _, [] => by simp [modifySub, nodeAt]
  | .node d cs, i :: rest, j :: brest => by
      simp only [modifySub, nodeAt]
      exact nodeAtKids_modifySubKids_map g F hF cs i rest j brest
termination_by t _ _ => sizeOf t

theorem nodeAtKids_modifySubKids_map {α : Type} (g : NodeData → α)
    (F : VTree → VTree)
    (hF : ∀ s b, (nodeAt (F s) b).map g = (nodeAt s b).map g) :
    ∀ (cs : List VTree) (i : Nat) (rest : List Nat) (j : Nat)
      (brest : List Nat),
      (nodeAtKids (modifySubKids F cs i rest) j brest).map g
        = (nodeAtKids cs j brest).map g
  | [], _, _, _, _ => by simp [modifySubKids]
  | c :: _, 0, rest, 0, brest => by
      simp only [modifySubKids, nodeAtKids]
      exact nodeAt_modifySub_map g F hF c rest brest
  | _ :: _, 0, _, _ + 1, _ => by simp [modifySubKids, nodeAtKids]
  | _ :: _, _ + 1, _, 0, _ => by simp [modifySubKids, nodeAtKids]
  | _ :: cs, i + 1, rest, j + 1, brest => by
      simp only [modifySubKids, nodeAtKids]
      exact nodeAtKids_modifySubKids_map g F hF cs i rest j brest
termination_by cs _ _ _ _ => sizeOf cs

end

/-- A recompute issued at a non-empty address leaves every node outside
that subtree untouched. -/
theorem nodeAt_recomputeFrom_off (t : VTree) (ra b : List Nat)
    (h : ¬ ra <+: b) : nodeAt (recomputeFrom t ra) b = nodeAt t b := by
  cases ra with
  | nil => exact absurd List.nil_prefix h
  | cons r rs =>
    simp only [recomputeFrom]
    cases nodeAt t (r :: rs).dropLast with
    | none => rfl
    | some pd => exact nodeAt_modifySub _ t (r :: rs) b h

/-- Recomputation (from anywhere) never changes a node's stored
requested size. -/
theorem nodeAt_recomputeFrom_req (t : VTree) (ra b : List Nat) :
    (nodeAt (recomputeFrom t ra) b).map (fun d => d.requested_size)
      = (nodeAt t b).map (fun d => d.requested_size) := by
  cases ra with
  | nil =>
    simp only [recomputeFrom]
    exact nodeAt_recomputeT_map (fun d => d.requested_size)
      (fun _ => rfl) (fun _ _ => rfl) none t b
  | cons r rs =>
    simp only [recomputeFrom]
    cases nodeAt t (r :: rs).dropLast with
    | none => rfl
    | some pd =>
      exact nodeAt_modifySub_map (fun d => d.requested_size) _
        (fun s b' =>
          nodeAt_recomputeT_map (fun d => d.requested_size)
            (fun _ => rfl) (fun _ _ => rfl) _ s b')
        t (r :: rs) b

/-- Recomputation (from anywhere) never changes a node's stored
requested position. -/
theorem nodeAt_recomputeFrom_reqPos (t : VTree) (ra b : List Nat) :
    (nodeAt (recomputeFrom t ra) b).map (fun d => d.requested_position)
      = (nodeAt t b).map (fun d => d.requested_position) := by
  cases ra with
  | nil =>
    simp only [recomputeFrom]
    exact nodeAt_recomputeT_map (fun d => d.requested_position)
      (fun _ => rfl) (fun _ _ => rfl) none t b
  | cons r rs =>
    simp only [recomputeFrom]
    cases nodeAt t (r :: rs).dropLast with
    | none => rfl
    | some pd =>
      exact nodeAt_modifySub_map (fun d => d.requested_position) _
        (fun s b' =>
          nodeAt_recomputeT_map (fun d => d.requested_position)
            (fun _ => rfl) (fun _ _ => rfl) _ s b')
        t (r :: rs) b

/-- Claim C8: adding a child sets the child's parent reference and appends
the child to the parent's child list; the claim further asserts the
operation fails with a precondition violation, with no mutation, when the
child already has a parent.  The code has no such check: as proved here,
even for a child whose parent reference is already set, `add` re-parents
the child and appends it to the new parent's child list (amended
behavior). -/
theorem claim_C8_add_unchecked (s c : VRec) (q : Nat)
    (h : c.parent = some q) :
    (addChild s c).1.children = s.children ++ [c.id]
    ∧ (addChild s c).2.parent = some s.id :=
  ⟨rfl, rfl⟩

/-- Witness for C8 at a concrete already-parented child. -/
theorem claim_C8_add_unchecked_witness :
    (addChild ⟨0, none, []⟩ ⟨1, some 7, [5]⟩).1.children = [] ++ [1]
    ∧ (addChild ⟨0, none, []⟩ ⟨1, some 7, [5]⟩).2.parent = some 0 :=
  claim_C8_add_unchecked ⟨0, none, []⟩ ⟨1, some 7, [5]⟩ 7 rfl

/-- Counterexample for C8 as stated: on a child that already has a parent
(reference 7), the checked operation demanded by the spec refuses, while
the code's `add` applies the full mutation — no failure, and the child is
re-parented. -/
theorem claim_C8_counterexample :
    addChildChecked ⟨0, none, []⟩ ⟨1, some 7, []⟩ = none
    ∧ (addChild ⟨0, none, []⟩ ⟨1, some 7, []⟩).2.parent = some 0
    ∧ (addChild ⟨0, none, []⟩ ⟨1, some 7, []⟩).1.children = [1] := by
  refine ⟨rfl, rfl, rfl⟩

/-- Claim C10: the `root` property returns the viewport itself when it
has no parent and otherwise its immediate parent — a single dereference,
not a recursive lookup; consequently, for a node whose parent itself has
a parent (depth at least 2), `root` returns a node that is not parentless,
i.e. an intermediate node rather than the actual tree root. -/
theorem claim_C10_root_accessor (env : List VRec) (v w : VRec) (p q : Nat) :
    (v.parent = none → rootRef env v = some v)
    ∧ (v.parent = some p →
        rootRef env v = env.find? (fun r => r.id == p))
    ∧ (v.parent = some p → env.find? (fun r => r.id == p) = some w →
        w.parent = some q → rootRef env v = some w ∧ w.parent ≠ none) := by
  refine ⟨fun h => by simp [rootRef, h],
          fun h => by simp [rootRef, h],
          fun h hf hw => ⟨by simp [rootRef, h, hf], by simp [hw]⟩⟩

/-- Witness for C10 on a 3-node chain `0 ← 1 ← 2`: the root accessor of
the depth-2 node returns node 1, which still has a parent. -/
theorem claim_C10_root_accessor_witness :
    rootRef [⟨0, none, [1]⟩, ⟨1, some 0, [2]⟩, ⟨2, some 1, []⟩]
        ⟨2, some 1, []⟩
      = some ⟨1, some 0, [2]⟩
    ∧ (⟨1, some 0, [2]⟩ : VRec).parent ≠ none :=
  (claim_C10_root_accessor
      [⟨0, none, [1]⟩, ⟨1, some 0, [2]⟩, ⟨2, some 1, []⟩]
      ⟨2, some 1, []⟩ ⟨1, some 0, [2]⟩ 1 0).2.2 rfl (by decide) rfl

/-- Claim C1 (amended): after a press at the root, a release at any
coordinates is dispatched exactly to the entries of the root's capture
list recorded at press time, with no re-hit-testing; that list consists
of the hit direct children in order, each followed by the ids of its own
hit children — so captured nodes at depth 2 are included, but a node at
depth 3 or deeper that received the press was appended to an intermediate
node's capture list and does not receive the release. -/
theorem claim_C1_release_receivers (px py rx ry : ℚ) (d : NodeData)
    (cs : List VTree) :
    releaseReceivers rx ry (pressRoot px py (.node d cs)).1
      = (cs.filter fun c => hitB d.viewport_size.2 c px py).flatMap
          (fun c => idOfT c :: hitIdsOf px py c) :=
  pressRoot_caps px py d cs

/-- Counterexample for C1 as stated: in the four-level chain, pressing at
`(10,90)` delivers the press to nodes 1, 2 and 3, but the release (at any
coordinates) reaches only nodes 1 and 2 — the root's capture list; node 3,
at depth 3, received the press yet never receives the release, because its
capture append went to node 1's list, not the root's. -/
theorem claim_C1_counterexample :
    (pressRoot 10 90 chain4).2 = [1, 2, 3]
    ∧ releaseReceivers 500 500 (pressRoot 10 90 chain4).1 = [1, 2]
    ∧ (3 : Nat) ∉ [1, 2] := by
  refine ⟨?_, ?_, by decide⟩ <;>
    norm_num [releaseReceivers, pressRoot, pressKids, pressT, hitB,
      containsPt, chain4, mkData, idOfT, VTree.data]

/-- Claim C2: without an aspect constraint, width and height are each
resolved independently from the requested scalar against the parent's
viewport dimension by the spec's four-branch rule and rounded to the
nearest integer (`pyround` deviates from its argument by at most 1/2). -/
theorem claim_C2_size_resolution (g : Geom) (d : NodeData)
    (h : d.aspect = none) :
    (computeChild g d).viewport_size
      = (rnd (specResolve d.requested_size.1 g.vsize.1),
         rnd (specResolve d.requested_size.2 g.vsize.2))
    ∧ ∀ q : ℚ, |rnd q - q| ≤ 1/2 := by
  constructor
  · rw [computeChild_size_noAspect g d h, resolveLen_eq_specResolve,
        resolveLen_eq_specResolve]
  · exact fun q => pyround_nearest q

/-- Witness for C2: a root of size `(400,400)` with a child requesting
`(1/2, -100)` and no aspect. -/
theorem claim_C2_size_resolution_witness :
    (computeChild (geomOf (mkData 0 (400, 400) (0, 0)))
        (mkData 1 (1/2, -100) (0, 0))).viewport_size
      = (rnd (specResolve (1/2) 400), rnd (specResolve (-100) 400))
    ∧ ∀ q : ℚ, |rnd q - q| ≤ 1/2 :=
  claim_C2_size_resolution (geomOf (mkData 0 (400, 400) (0, 0)))
    (mkData 1 (1/2, -100) (0, 0)) rfl

/-- Claim C3 (amended): provided the parent's clip extents are
nonnegative — which holds for every clip rectangle produced by the child
branch, but not for a root whose requested size is negative — the child's
clip extents after a recompute are at most the parent's clip extents and
are never negative. -/
theorem claim_C3_clip_bounds (g : Geom) (d : NodeData)
    (hw : 0 ≤ g.ssize.1) (hh : 0 ≤ g.ssize.2) :
    ((computeChild g d).scissor_size.1 ≤ g.ssize.1
      ∧ 0 ≤ (computeChild g d).scissor_size.1)
    ∧ ((computeChild g d).scissor_size.2 ≤ g.ssize.2
      ∧ 0 ≤ (computeChild g d).scissor_size.2) := by
  refine ⟨⟨?_, ?_⟩, ?_, ?_⟩
  · simp only [computeChild]
    exact scissorLen_le _ _ _ _ hw (le_max_left _ _)
  · simp only [computeChild]
    exact scissorLen_nonneg _ _ _ _
  · simp only [computeChild]
    exact scissorLen_le _ _ _ _ hh (le_max_left _ _)
  · simp only [computeChild]
    exact scissorLen_nonneg _ _ _ _

/-- Witness for C3: a recomputed root of size `(100,100)` with a child
requesting half the parent. -/
theorem claim_C3_clip_bounds_witness :
    ((computeChild (geomOf (computeRoot (mkData 0 (100, 100) (0, 0))))
          (mkData 1 (1/2, 1/2) (0, 0))).scissor_size.1
        ≤ (geomOf (computeRoot (mkData 0 (100, 100) (0, 0)))).ssize.1
      ∧ 0 ≤ (computeChild (geomOf (computeRoot (mkData 0 (100, 100) (0, 0))))
          (mkData 1 (1/2, 1/2) (0, 0))).scissor_size.1)
    ∧ ((computeChild (geomOf (computeRoot (mkData 0 (100, 100) (0, 0))))
          (mkData 1 (1/2, 1/2) (0, 0))).scissor_size.2
        ≤ (geomOf (computeRoot (mkData 0 (100, 100) (0, 0)))).ssize.2
      ∧ 0 ≤ (computeChild (geomOf (computeRoot (mkData 0 (100, 100) (0, 0))))
          (mkData 1 (1/2, 1/2) (0, 0))).scissor_size.2) :=
  claim_C3_clip_bounds (geomOf (computeRoot (mkData 0 (100, 100) (0, 0))))
    (mkData 1 (1/2, 1/2) (0, 0))
    (by norm_num [geomOf, computeRoot, mkData])
    (by norm_num [geomOf, computeRoot, mkData])

/-- Counterexample for C3 as stated (over all parent geometries): under a
root whose requested size is `(-5,-5)` — stored verbatim as the root's
clip rectangle — a child requesting `(2/5, 2/5)` gets clip width 0, which
is not `≤` the parent's clip width `-5`. -/
theorem claim_C3_counterexample :
    (computeChild (geomOf (computeRoot (mkData 0 (-5, -5) (0, 0))))
        (mkData 1 (2/5, 2/5) (0, 0))).scissor_size.1 = 0
    ∧ (geomOf (computeRoot (mkData 0 (-5, -5) (0, 0)))).ssize.1 = -5
    ∧ ¬ ((0 : ℚ) ≤ -5) := by
  refine ⟨?_, ?_, by norm_num⟩ <;>
    norm_num [computeChild, computeRoot, geomOf, mkData, resolveLen,
      resolvePos, resolveAnchor, scissorLen, rnd, pyround]

/-- Claim C4 (amended): the clip rectangle's position components clamp
the child position against the parent's viewport position (not the
parent's clip position), while the extents are limited by the parent's
clip extents measured from the parent's viewport position. -/
theorem claim_C4_clip_formulas (g : Geom) (d : NodeData) :
    (computeChild g d).scissor_position
        = (max g.vpos.1 (computeChild g d).viewport_position.1,
           max g.vpos.2 (computeChild g d).viewport_position.2)
    ∧ (computeChild g d).scissor_size
        = (max (min (g.ssize.1
              - ((computeChild g d).scissor_position.1 - g.vpos.1) - 1)
              (computeChild g d).viewport_size.1) 0,
           max (min (g.ssize.2
              - ((computeChild g d).scissor_position.2 - g.vpos.2) - 1)
              (computeChild g d).viewport_size.2) 0) := by
  constructor <;> simp [computeChild, scissorLen]

/-- Counterexample for C4 as stated: for the grandchild of the C4
example, the parent's clip x is 0 while its viewport x is -20; the code
computes clip x = -20, the spec's intersection formula demands 0. -/
theorem claim_C4_counterexample :
    c4Grandchild.scissor_position.1 = -20
    ∧ (specClip c4ParentGeom c4Grandchild.viewport_position
        c4Grandchild.viewport_size).1.1 = 0
    ∧ c4ParentGeom.spos.1 = 0
    ∧ c4ParentGeom.vpos.1 = -20
    ∧ ((-20 : ℚ) ≠ 0) := by
  refine ⟨?_, ?_, ?_, ?_, by norm_num⟩ <;>
    norm_num [c4Grandchild, c4ParentGeom, specClip, computeChild,
      computeRoot, geomOf, mkData, resolveLen, resolvePos, resolveAnchor,
      scissorLen, rnd, pyround]

/-- Claim C5: a press at the root clears the capture list and rebuilds it
from the hit direct children in child order (each followed by its own hit
children), and every direct child containing the point receives the press
event; in particular both of two overlapping hit siblings receive it. -/
theorem claim_C5_press_dispatch (x y : ℚ) (d : NodeData)
    (cs : List VTree) :
    rootCaps (pressRoot x y (.node d cs)).1
      = (cs.filter fun c => hitB d.viewport_size.2 c x y).flatMap
          (fun c => idOfT c :: hitIdsOf x y c)
    ∧ ∀ c ∈ cs, hitB d.viewport_size.2 c x y = true →
        idOfT c ∈ (pressRoot x y (.node d cs)).2 := by
  refine ⟨pressRoot_caps x y d cs, fun c hc hh => ?_⟩
  have hlog : (pressRoot x y (.node d cs)).2
      = (pressKids x y d.viewport_size.2 cs).plog := by
    rw [pressRoot]
  rw [hlog]
  exact mem_pressKids_log x y _ cs c hc hh

/-- Witness for C5: the two fully overlapping siblings of `overlapTree`
both get captured and both receive the press. -/
theorem claim_C5_press_dispatch_witness :
    rootCaps (pressRoot 10 90 overlapTree).1 = [1, 2]
    ∧ (1 : Nat) ∈ (pressRoot 10 90 overlapTree).2
    ∧ (2 : Nat) ∈ (pressRoot 10 90 overlapTree).2 := by
  have h := claim_C5_press_dispatch 10 90 (mkData 0 (100, 100) (0, 0))
    [.node (mkData 1 (100, 100) (0, 0)) [],
     .node (mkData 2 (100, 100) (0, 0)) []]
  exact ⟨h.1.trans (by
           norm_num [hitB, containsPt, mkData, idOfT, VTree.data,
             hitIdsOf, VTree.kids]),
         h.2 (.node (mkData 1 (100, 100) (0, 0)) [])
           (List.mem_cons_self _ _)
           (by norm_num [hitB, containsPt, mkData, VTree.data]),
         h.2 (.node (mkData 2 (100, 100) (0, 0)) [])
           (List.mem_cons_of_mem _ (List.mem_cons_self _ _))
           (by norm_num [hitB, containsPt, mkData, VTree.data])⟩

/-- Claim C6 (amended): the `active` property setter cascades for both
values — setting false recursively clears the whole subtree, and setting
true recursively sets the whole subtree as well; the non-cascading
single-node activation happens only in `on_mouse_motion`, which writes
the underlying `_active` field directly instead of using the setter. -/
theorem claim_C6_active_cascade (v : Bool) (t : VTree) :
    allD (fun d => d.active == v) (setActiveT v t) = true :=
  setActiveT_all v t

/-- Counterexample for C6 as stated: setting `active = True` on the root
of a two-node tree also flips the child's flag from false to true,
contradicting "marks only the targeted node and does not cascade". -/
theorem claim_C6_counterexample :
    (nodeAt (setActiveT true (.node (mkData 0 (100, 100) (0, 0))
        [.node (mkData 1 (100, 100) (0, 0)) []])) [0]).map
      (fun d => d.active) = some true
    ∧ (nodeAt (.node (mkData 0 (100, 100) (0, 0))
        [.node (mkData 1 (100, 100) (0, 0)) []] : VTree) [0]).map
      (fun d => d.active) = some false := by
  constructor <;>
    norm_num [setActiveT, setActiveKids, nodeAt, nodeAtKids, mkData]

/-- Claim C7 (amended): setting a node's size or position stores the new
request, and triggers a recompute at the node returned by the root
accessor: for a node at depth 0 or 1 that is the tree's root, so the
whole tree is recomputed exactly as the spec demands; for a node at
depth 2 or more it is only the immediate parent, so only the parent's
subtree is recomputed and every node outside it keeps its stored state
unchanged. -/
theorem claim_C7_recompute_scope (t : VTree) (a : List Nat)
    (sz ps : ℚ × ℚ) :
    (a.length ≤ 1 →
      setSizeAt t a sz = setSizeFullRecompute t a sz
      ∧ setPositionAt t a ps = setPositionFullRecompute t a ps)
    ∧ (nodeAt (setSizeAt t a sz) a).map (fun d => d.requested_size)
        = (nodeAt t a).map (fun _ => sz)
    ∧ (nodeAt (setPositionAt t a ps) a).map (fun d => d.requested_position)
        = (nodeAt t a).map (fun _ => ps)
    ∧ (∀ b, ¬ a.dropLast <+: b →
        nodeAt (setSizeAt t a sz) b = nodeAt t b
        ∧ nodeAt (setPositionAt t a ps) b = nodeAt t b) := by
  refine ⟨?_, ?_, ?_, ?_⟩
  · intro h
    cases a with
    | nil => exact ⟨rfl, rfl⟩
    | cons i irest =>
      cases irest with
      | nil => exact ⟨rfl, rfl⟩
      | cons j jrest => simp at h
  · calc (nodeAt (setSizeAt t a sz) a).map (fun d => d.requested_size)
        = (nodeAt (updateData (fun d => { d with requested_size := sz })
            t a) a).map (fun d => d.requested_size) :=
          nodeAt_recomputeFrom_req _ _ a
      _ = ((nodeAt t a).map
            (fun d => { d with requested_size := sz })).map
            (fun d => d.requested_size) := by rw [nodeAt_updateData]
      _ = (nodeAt t a).map (fun _ => sz) := by cases nodeAt t a <;> rfl
  · calc (nodeAt (setPositionAt t a ps) a).map
          (fun d => d.requested_position)
        = (nodeAt (updateData
            (fun d => { d with requested_position := ps }) t a) a).map
            (fun d => d.requested_position) :=
          nodeAt_recomputeFrom_reqPos _ _ a
      _ = ((nodeAt t a).map
            (fun d => { d with requested_position := ps })).map
            (fun d => d.requested_position) := by rw [nodeAt_updateData]
      _ = (nodeAt t a).map (fun _ => ps) := by cases nodeAt t a <;> rfl
  · intro b hb
    have hb' : ¬ a <+: b := fun hab => hb ((List.dropLast_prefix a).trans hab)
    constructor
    · calc nodeAt (setSizeAt t a sz) b
          = nodeAt (updateData (fun d => { d with requested_size := sz })
              t a) b := nodeAt_recomputeFrom_off _ _ b hb
        _ = nodeAt t b := nodeAt_modifySub _ t a b hb'
    · calc nodeAt (setPositionAt t a ps) b
          = nodeAt (updateData
              (fun d => { d with requested_position := ps }) t a) b :=
            nodeAt_recomputeFrom_off _ _ b hb
        _ = nodeAt t b := nodeAt_modifySub _ t a b hb'

/-- Witness for C7: on the stale tree, a depth-1 set-size recomputes the
full tree, and a depth-2 set-size leaves the node at address `[1]` (the
sibling subtree) untouched. -/
theorem claim_C7_recompute_scope_witness :
    setSizeAt staleTree [0] (20, 20)
        = setSizeFullRecompute staleTree [0] (20, 20)
    ∧ nodeAt (setSizeAt staleTree [0, 0] (20, 20)) [1]
        = nodeAt staleTree [1] :=
  ⟨((claim_C7_recompute_scope staleTree [0] (20, 20) (0, 0)).1
      (by norm_num)).1,
   ((claim_C7_recompute_scope staleTree [0, 0] (20, 20) (0, 0)).2.2.2 [1]
      (by norm_num [List.IsPrefix])).1⟩

/-- Counterexample for C7 as stated: in the stale tree, setting the size
of the depth-2 node at `[0,0]` recomputes only node 1's subtree — the
sibling at `[1]` keeps its raw stored geometry `(1/2, 1/2)`, while the
full-tree recompute demanded by the claim would give it `(200, 200)`. -/
theorem claim_C7_counterexample :
    (nodeAt (setSizeAt staleTree [0, 0] (20, 20)) [1]).map
        (fun d => d.viewport_size) = some (1/2, 1/2)
    ∧ (nodeAt (setSizeFullRecompute staleTree [0, 0] (20, 20)) [1]).map
        (fun d => d.viewport_size) = some (200, 200)
    ∧ ((1/2 : ℚ), (1/2 : ℚ)) ≠ ((200 : ℚ), (200 : ℚ)) := by
  refine ⟨?_, ?_, by norm_num⟩
  · have e0 : nodeAt (setSizeAt staleTree [0, 0] (20, 20)) [1]
        = nodeAt staleTree [1] := by
      calc nodeAt (setSizeAt staleTree [0, 0] (20, 20)) [1]
          = nodeAt (updateData
              (fun d => { d with requested_size := (20, 20) })
              staleTree [0, 0]) [1] :=
            nodeAt_recomputeFrom_off _ _ [1] (by norm_num [List.IsPrefix])
        _ = nodeAt staleTree [1] :=
            nodeAt_modifySub _ staleTree [0, 0] [1]
              (by norm_num [List.IsPrefix])
    rw [e0]
    norm_num [staleTree, mkData, nodeAt, nodeAtKids]
  · have e1 : nodeAt (setSizeFullRecompute staleTree [0, 0] (20, 20)) [1]
        = some (computeChild (geomOf (computeRoot (mkData 0 (400, 400)
            (0, 0)))) (mkData 2 (1/2, 1/2) (0, 0))) := by
      simp [setSizeFullRecompute, updateData, modifySub, modifySubKids,
        dataUpd, staleTree, recomputeT, recomputeKids, nodeAt, nodeAtKids]
    have e2 : (computeChild (geomOf (computeRoot (mkData 0 (400, 400)
          (0, 0)))) (mkData 2 (1/2, 1/2) (0, 0))).viewport_size
        = (200, 200) := by
      norm_num [computeChild, computeRoot, geomOf, mkData, resolveLen,
        resolvePos, resolveAnchor, scissorLen, rnd, pyround]
    rw [e1]
    simp only [Option.map_some']
    rw [e2]

/-- Claim C9 (amended): the containment test does not compare the point
as given — it first inverts the y coordinate against the viewport height
of the node returned by the (non-recursive) root accessor, inside the
test itself, and then compares against the absolute viewport rectangle
(not the clip rectangle); it coincides with the spec's plain rectangle
test applied to the pre-flipped point. -/
theorem claim_C9_contains_flip (rootH : ℚ) (d : NodeData) (x y : ℚ) :
    containsPt rootH d x y = specContains d x (rootH - y) := rfl

/-- Counterexample for C9 as stated: for a node with rectangle
`(0,0,100,100)` under root height 400, the point `(50,350)` is outside
the rectangle as given, yet `__contains__` accepts it after flipping y
inside the test. -/
theorem claim_C9_counterexample :
    containsPt 400 (mkData 7 (100, 100) (0, 0)) 50 350 = true
    ∧ specContains (mkData 7 (100, 100) (0, 0)) 50 350 = false := by
  constructor <;> norm_num [containsPt, specContains, mkData]

end Glumpy
